import Mathlib

/-
Verification of the option-series settlement engine of `sol_option_protocol`
(programs/sol_option_protocol/src).  Machine integers (`u64`, `u128`) are
embedded as `Nat` together with explicit bound checks exactly where the Rust
code performs checked arithmetic; fallible code returns `Except Err`.
-/

namespace SolOptionProtocol

/-- Largest value representable in an unsigned 64-bit integer. -/
def U64_MAX : Nat := 2 ^ 64 - 1

/-- Largest value representable in an unsigned 128-bit integer. -/
def U128_MAX : Nat := 2 ^ 128 - 1

/-- Program error codes (src/errors.rs), restricted to the variants used by
the handlers embedded here. -/
inductive ErrorCode
  | ExpirationInPast
  | InvalidStrikePrice
  | InvalidAmount
  | MathOverflow
  | OptionExpired
  | InsufficientCollateral
  | OptionNotExpired
  | NoTokensIssued
  | NoShortTokens
  | NoCashAvailable
  deriving DecidableEq

/-- Failure outcomes of an operation: a program `ErrorCode`, a failure coming
from the SPL token ledger (insufficient balance / balance overflow), or a
Rust arithmetic-overflow panic (unchecked `pow` with overflow checks on). -/
inductive Err
  | code : ErrorCode → Err
  | tokenInsufficientFunds
  | tokenOverflow
  | panicOverflow
  deriving DecidableEq

deriving instance DecidableEq for Except

/-- Rust `u64::checked_mul`. -/
def checked_mul (a b : Nat) : Option Nat :=
  if a * b ≤ U64_MAX then some (a * b) else none

/-- Rust `u64::checked_div` (fails only on division by zero). -/
def checked_div (a b : Nat) : Option Nat :=
  if b = 0 then none else some (a / b)

/-- Rust `u64::checked_add`. -/
def checked_add (a b : Nat) : Option Nat :=
  if a + b ≤ U64_MAX then some (a + b) else none

/-- Rust `u64::checked_sub`. -/
def checked_sub (a b : Nat) : Option Nat :=
  if b ≤ a then some (a - b) else none

/-- Rust `u128::checked_mul`. -/
def checked_mul_u128 (a b : Nat) : Option Nat :=
  if a * b ≤ U128_MAX then some (a * b) else none

/-- Rust `u128::checked_div` (fails only on division by zero). -/
def checked_div_u128 (a b : Nat) : Option Nat :=
  if b = 0 then none else some (a / b)

/-- Rust `10_u64.pow e`: with overflow checks enabled an overflowing result
aborts the program with an arithmetic panic instead of returning. -/
def pow10_u64 (e : Nat) : Except Err Nat :=
  if 10 ^ e ≤ U64_MAX then .ok (10 ^ e) else .error .panicOverflow

/-- src/utils/math.rs `calculate_pro_rata_share`:
payout = (vault_balance × user_amount) / total_supply in u64 arithmetic. -/
def calculate_pro_rata_share (vault_balance user_amount total_supply : Nat) :
    Except Err Nat :=
  if total_supply > 0 then
    if vault_balance = 0 then .ok 0
    else
      match checked_mul vault_balance user_amount with
      | none => .error (.code .MathOverflow)
      | some p =>
        match checked_div p total_supply with
        | none => .error (.code .MathOverflow)
        | some payout => .ok payout
  else .error (.code .NoTokensIssued)

/-- src/utils/math.rs `calculate_pro_rata_share_u128`: widens to u128 for the
intermediate product and narrows the quotient back with an unchecked
`as u64` cast (truncation modulo 2^64). -/
def calculate_pro_rata_share_u128 (vault_balance user_amount total_supply : Nat) :
    Except Err Nat :=
  if total_supply > 0 then
    if vault_balance = 0 then .ok 0
    else
      match checked_mul_u128 vault_balance user_amount with
      | none => .error (.code .MathOverflow)
      | some numerator =>
        match checked_div_u128 numerator total_supply with
        | none => .error (.code .MathOverflow)
        | some payout => .ok (payout % 2 ^ 64)
  else .error (.code .NoTokensIssued)

/-- src/utils/math.rs `calculate_strike_payment`:
payment = (amount × strike_price) / 10^collateral_decimals.  The Rust code
evaluates `checked_mul` (with its `?`) before the divisor expression
`10_u64.pow(collateral_decimals)`, whose overflow is not checked. -/
def calculate_strike_payment (amount strike_price collateral_decimals : Nat) :
    Except Err Nat :=
  match checked_mul amount strike_price with
  | none => .error (.code .MathOverflow)
  | some p =>
    match pow10_u64 collateral_decimals with
    | .error e => .error e
    | .ok d =>
      match checked_div p d with
      | none => .error (.code .MathOverflow)
      | some payment => .ok payment

/-- src/utils/validation.rs `validate_amount`. -/
def validate_amount (amount : Nat) : Except Err Unit :=
  if amount > 0 then .ok () else .error (.code .InvalidAmount)

/-- src/utils/validation.rs `validate_vault_balance`. -/
def validate_vault_balance (vault_balance required : Nat) : Except Err Unit :=
  if vault_balance ≥ required then .ok () else .error (.code .InsufficientCollateral)

/-- src/utils/validation.rs `validate_expired` with the clock value passed
explicitly (`Clock::get()?.unix_timestamp`). -/
def validate_expired (current_time expiration : Int) : Except Err Unit :=
  if current_time ≥ expiration then .ok () else .error (.code .OptionNotExpired)

/-- The balances and series counters one lifecycle operation observes and
mutates: the `OptionData` runtime fields and parameters (option.rs), the two
vault balances, and the caller's four token-account balances from
`OptionContext`. -/
structure SeriesState where
  total_supply : Nat
  exercised_amount : Nat
  strike_price : Nat
  expiration : Int
  collateral_decimals : Nat
  consideration_decimals : Nat
  collateral_vault : Nat
  consideration_vault : Nat
  user_collateral : Nat
  user_consideration : Nat
  user_option : Nat
  user_redemption : Nat
  deriving DecidableEq

/-- SPL token `transfer_checked`: fails when the source balance is
insufficient or the destination balance would overflow u64; returns the new
(source, destination) balances. -/
def token_transfer (source dest amount : Nat) : Except Err (Nat × Nat) :=
  if source < amount then .error .tokenInsufficientFunds
  else if U64_MAX < dest + amount then .error .tokenOverflow
  else .ok (source - amount, dest + amount)

/-- SPL token `mint_to`: fails when the destination balance would overflow
u64; returns the new destination balance. -/
def token_mint_to (dest amount : Nat) : Except Err Nat :=
  if U64_MAX < dest + amount then .error .tokenOverflow
  else .ok (dest + amount)

/-- SPL token `burn`: fails when the source balance is insufficient; returns
the new source balance. -/
def token_burn (source amount : Nat) : Except Err Nat :=
  if source < amount then .error .tokenInsufficientFunds
  else .ok (source - amount)

/-- src/instructions/mint_options.rs `handler`: transfer `amount` collateral
from the caller to the vault, mint `amount` long (option) and `amount` short
(redemption) tokens to the caller, then `checked_add` `amount` onto
`total_supply`.  Any failure aborts the whole transaction (atomicity supplied
by the surrounding ledger), so an error leaves no state change. -/
def mint_options_handler (s : SeriesState) (amount : Nat) : Except Err SeriesState :=
  match validate_amount amount with
  | .error e => .error e
  | .ok _ =>
    match token_transfer s.user_collateral s.collateral_vault amount with
    | .error e => .error e
    | .ok (uc, cv) =>
      match token_mint_to s.user_option amount with
      | .error e => .error e
      | .ok uo =>
        match token_mint_to s.user_redemption amount with
        | .error e => .error e
        | .ok ur =>
          match checked_add s.total_supply amount with
          | none => .error (.code .MathOverflow)
          | some ts =>
            .ok { s with user_collateral := uc, collateral_vault := cv,
                         user_option := uo, user_redemption := ur,
                         total_supply := ts }

/-- src/instructions/burn_paired.rs `handler`: burn `amount` long and
`amount` short tokens from the caller, transfer `amount` collateral from the
vault back to the caller, then `checked_sub` `amount` from `total_supply`. -/
def burn_paired_handler (s : SeriesState) (amount : Nat) : Except Err SeriesState :=
  match validate_amount amount with
  | .error e => .error e
  | .ok _ =>
    match validate_vault_balance s.collateral_vault amount with
    | .error e => .error e
    | .ok _ =>
      match token_burn s.user_option amount with
      | .error e => .error e
      | .ok uo =>
        match token_burn s.user_redemption amount with
        | .error e => .error e
        | .ok ur =>
          match token_transfer s.collateral_vault s.user_collateral amount with
          | .error e => .error e
          | .ok (cv, uc) =>
            match checked_sub s.total_supply amount with
            | none => .error (.code .MathOverflow)
            | some ts =>
              .ok { s with user_option := uo, user_redemption := ur,
                           collateral_vault := cv, user_collateral := uc,
                           total_supply := ts }

/-- src/instructions/exercise.rs `handler`: after validation, compute the
strike payment, burn `amount` long tokens from the caller, transfer the
payment from the caller into the consideration vault, transfer `amount`
collateral from the vault to the caller, and `checked_add` `amount` onto
`exercised_amount`. -/
def exercise_handler (s : SeriesState) (amount : Nat) : Except Err SeriesState :=
  match validate_amount amount with
  | .error e => .error e
  | .ok _ =>
    match validate_vault_balance s.collateral_vault amount with
    | .error e => .error e
    | .ok _ =>
      match calculate_strike_payment amount s.strike_price s.collateral_decimals with
      | .error e => .error e
      | .ok strike_payment =>
        match token_burn s.user_option amount with
        | .error e => .error e
        | .ok uo =>
          match token_transfer s.user_consideration s.consideration_vault strike_payment with
          | .error e => .error e
          | .ok (ucons, consv) =>
            match token_transfer s.collateral_vault s.user_collateral amount with
            | .error e => .error e
            | .ok (cv, ucol) =>
              match checked_add s.exercised_amount amount with
              | none => .error (.code .MathOverflow)
              | some ex =>
                .ok { s with user_option := uo, user_consideration := ucons,
                             consideration_vault := consv,
                             collateral_vault := cv, user_collateral := ucol,
                             exercised_amount := ex }

/-- src/instructions/redeem.rs `handler`: post-expiry, compute both pro-rata
payouts against `total_supply`, burn `amount` short (redemption) tokens from
the caller, then transfer each payout to the caller when positive.  Neither
`total_supply` nor `exercised_amount` is mutated. -/
def redeem_handler (s : SeriesState) (current_time : Int) (amount : Nat) :
    Except Err SeriesState :=
  match validate_amount amount with
  | .error e => .error e
  | .ok _ =>
    match validate_expired current_time s.expiration with
    | .error e => .error e
    | .ok _ =>
      match calculate_pro_rata_share s.collateral_vault amount s.total_supply with
      | .error e => .error e
      | .ok collateral_payout =>
        match calculate_pro_rata_share s.consideration_vault amount s.total_supply with
        | .error e => .error e
        | .ok consideration_payout =>
          match token_burn s.user_redemption amount with
          | .error e => .error e
          | .ok ur =>
            match (if collateral_payout > 0 then
                     token_transfer s.collateral_vault s.user_collateral collateral_payout
                   else .ok (s.collateral_vault, s.user_collateral)) with
            | .error e => .error e
            | .ok (cv, ucol) =>
              match (if consideration_payout > 0 then
                       token_transfer s.consideration_vault s.user_consideration consideration_payout
                     else .ok (s.consideration_vault, s.user_consideration)) with
              | .error e => .error e
              | .ok (consv, ucons) =>
                .ok { s with user_redemption := ur,
                             collateral_vault := cv, user_collateral := ucol,
                             consideration_vault := consv,
                             user_consideration := ucons }

/-- src/instructions/redeem_consideration.rs `handler`: the code reads the
caller's "short" balance from `user_consideration_account.amount` (faithful
to the source, which does not read `user_redemption_account`), requires it
positive, requires a positive consideration-vault balance, computes the
widened pro-rata share, clamps it by the vault balance, requires the clamp
positive, and transfers it to the caller's consideration account.  No counter
is updated and nothing is burned. -/
def redeem_consideration_handler (s : SeriesState) : Except Err SeriesState :=
  if s.user_consideration > 0 then
    if s.consideration_vault > 0 then
      match calculate_pro_rata_share_u128 s.consideration_vault
              s.user_consideration s.total_supply with
      | .error e => .error e
      | .ok user_total_share =>
        if min user_total_share s.consideration_vault > 0 then
          match token_transfer s.consideration_vault s.user_consideration
                  (min user_total_share s.consideration_vault) with
          | .error e => .error e
          | .ok (consv, ucons) =>
            .ok { s with consideration_vault := consv,
                         user_consideration := ucons }
        else .error (.code .NoCashAvailable)
    else .error (.code .NoCashAvailable)
  else .error (.code .NoShortTokens)

/-- C1: `calculate_pro_rata_share` fails with `NoTokensIssued` when
`total_supply = 0`; otherwise returns `0` when `vault_balance = 0`; otherwise
returns `floor(vault_balance * user_amount / total_supply)`, failing with
`MathOverflow` exactly when the 64-bit product overflows. -/
theorem calculate_pro_rata_share_correct (vb ua ts : Nat) :
    calculate_pro_rata_share vb ua ts =
      if ts = 0 then .error (.code .NoTokensIssued)
      else if vb = 0 then .ok 0
      else if vb * ua ≤ U64_MAX then .ok (vb * ua / ts)
      else .error (.code .MathOverflow) := by
  unfold calculate_pro_rata_share checked_mul checked_div
  rcases Nat.eq_zero_or_pos ts with hts | hts
  · simp [hts]
  · have hts' : ts ≠ 0 := Nat.pos_iff_ne_zero.mp hts
    by_cases hvb : vb = 0
    · simp [hts, hts', hvb]
    · by_cases hmul : vb * ua ≤ U64_MAX
      · simp [hts, hts', hvb, hmul]
      · simp [hts, hts', hvb, hmul]

/-- C6: whenever the exact quotient `floor(vault_balance * user_amount /
total_supply)` fits in 64 bits (inputs being 64-bit values with a nonzero
denominator), `calculate_pro_rata_share_u128` returns exactly that quotient:
the final narrowing loses no precision. -/
theorem pro_rata_u128_no_precision_loss (vb ua ts : Nat)
    (hvb : vb ≤ U64_MAX) (hua : ua ≤ U64_MAX) (hts : 0 < ts)
    (hq : vb * ua / ts ≤ U64_MAX) :
    calculate_pro_rata_share_u128 vb ua ts = .ok (vb * ua / ts) := by
  have hts' : ts ≠ 0 := Nat.pos_iff_ne_zero.mp hts
  have hmul : vb * ua ≤ U128_MAX :=
    le_trans (Nat.mul_le_mul hvb hua) (by norm_num [U64_MAX, U128_MAX])
  unfold calculate_pro_rata_share_u128 checked_mul_u128 checked_div_u128
  by_cases hvb0 : vb = 0
  · simp [hts, hvb0]
  · simp [hts, hts', hvb0, hmul]
    exact lt_of_le_of_lt hq (by norm_num [U64_MAX])

/-- C6 witness: the spec's worked redeem example, `1000 * 50 / 200 = 250`,
computed through the widened variant. -/
theorem pro_rata_u128_no_precision_loss_witness :
    calculate_pro_rata_share_u128 1000 50 200 = .ok (1000 * 50 / 200) :=
  pro_rata_u128_no_precision_loss 1000 50 200 (by norm_num [U64_MAX])
    (by norm_num [U64_MAX]) (by norm_num) (by norm_num [U64_MAX])

/-- C9: whenever the exact quotient exceeds `u64::MAX` (inputs being 64-bit
values), `calculate_pro_rata_share_u128` succeeds and returns the quotient
truncated modulo `2^64`: the u128-to-u64 cast is unchecked. -/
theorem pro_rata_u128_truncates (vb ua ts : Nat)
    (hvb : vb ≤ U64_MAX) (hua : ua ≤ U64_MAX) (hts : 0 < ts)
    (hbig : U64_MAX < vb * ua / ts) :
    calculate_pro_rata_share_u128 vb ua ts = .ok (vb * ua / ts % 2 ^ 64) := by
  have hts' : ts ≠ 0 := Nat.pos_iff_ne_zero.mp hts
  have hmul : vb * ua ≤ U128_MAX :=
    le_trans (Nat.mul_le_mul hvb hua) (by norm_num [U64_MAX, U128_MAX])
  have hvb0 : vb ≠ 0 := by
    intro h
    rw [h, Nat.zero_mul, Nat.zero_div] at hbig
    exact absurd hbig (Nat.not_lt_zero _)
  unfold calculate_pro_rata_share_u128 checked_mul_u128 checked_div_u128
  simp [hts, hts', hvb0, hmul]

/-- C9 witness: at `vault_balance = user_amount = 2^64 - 1`,
`total_supply = 1`, the exact quotient exceeds `u64::MAX`, and the function
succeeds with the quotient's low 64 bits. -/
theorem pro_rata_u128_truncates_witness :
    U64_MAX < (2 ^ 64 - 1) * (2 ^ 64 - 1) / 1 ∧
    calculate_pro_rata_share_u128 (2 ^ 64 - 1) (2 ^ 64 - 1) 1 =
      .ok ((2 ^ 64 - 1) * (2 ^ 64 - 1) / 1 % 2 ^ 64) :=
  ⟨by norm_num [U64_MAX],
   pro_rata_u128_truncates (2 ^ 64 - 1) (2 ^ 64 - 1) 1
     (by norm_num [U64_MAX]) (by norm_num [U64_MAX]) (by norm_num)
     (by norm_num [U64_MAX])⟩

/-- C7: the multiplication-overflow half of the claim holds (`checked_mul`
overflow yields `MathOverflow`), but when `10^collateral_decimals` exceeds
`u64::MAX` (here `collateral_decimals = 20`) the code does not return the
`MathOverflow` error kind: the unchecked `pow` aborts with an
arithmetic-overflow panic. -/
theorem strike_payment_pow_overflow_panics :
    calculate_strike_payment (2 ^ 32) (2 ^ 32) 0 = .error (.code .MathOverflow) ∧
    calculate_strike_payment 1 1 20 = .error .panicOverflow ∧
    calculate_strike_payment 1 1 20 ≠ .error (.code .MathOverflow) := by
  refine ⟨?_, ?_, ?_⟩ <;>
    simp [calculate_strike_payment, checked_mul, checked_div, pow10_u64, U64_MAX]

/-- C8 counterexample: at `amount = 100`, `strike_price = 4000000`,
`collateral_decimals = 5` the strike payment is not `4000000` as the spec's
example states. -/
theorem strike_payment_example_not_4000000 :
    calculate_strike_payment 100 4000000 5 ≠ .ok 4000000 := by
  simp [calculate_strike_payment, checked_mul, checked_div, pow10_u64, U64_MAX]

/-- C8 (amended): at `amount = 100`, `strike_price = 4000000`,
`collateral_decimals = 5` the strike payment is
`floor(100 * 4000000 / 10^5) = 4000`. -/
theorem strike_payment_example_4000 :
    calculate_strike_payment 100 4000000 5 = .ok 4000 := by
  simp [calculate_strike_payment, checked_mul, checked_div, pow10_u64, U64_MAX]

/-- Helper: `checked_add` succeeds exactly up to `U64_MAX`, returning the sum. -/
theorem checked_add_some {a b c : Nat} (h : checked_add a b = some c) :
    c = a + b := by
  unfold checked_add at h
  split at h
  · exact (Option.some.injEq _ _).mp h |>.symm
  · exact Option.noConfusion h

/-- Helper: a mint with a positive amount, sufficient caller collateral and no
balance overflow runs to completion with the expected balance updates. -/
theorem mint_options_run (s : SeriesState) (amount : Nat)
    (hpos : 0 < amount) (hbal : amount ≤ s.user_collateral)
    (hcv : s.collateral_vault + amount ≤ U64_MAX)
    (hlong : s.user_option + amount ≤ U64_MAX)
    (hshort : s.user_redemption + amount ≤ U64_MAX)
    (hts : s.total_supply + amount ≤ U64_MAX) :
    mint_options_handler s amount =
      .ok { s with user_collateral := s.user_collateral - amount,
                   collateral_vault := s.collateral_vault + amount,
                   user_option := s.user_option + amount,
                   user_redemption := s.user_redemption + amount,
                   total_supply := s.total_supply + amount } := by
  simp [mint_options_handler, validate_amount, token_transfer, token_mint_to,
        checked_add, hpos, Nat.not_lt.mpr hbal, Nat.not_lt.mpr hcv,
        Nat.not_lt.mpr hlong, Nat.not_lt.mpr hshort, hts]

/-- Helper: a mint whose `total_supply` update would exceed `u64::MAX` fails
with `MathOverflow` (given that the earlier token operations succeed). -/
theorem mint_options_overflow (s : SeriesState) (amount : Nat)
    (hpos : 0 < amount) (hbal : amount ≤ s.user_collateral)
    (hcv : s.collateral_vault + amount ≤ U64_MAX)
    (hlong : s.user_option + amount ≤ U64_MAX)
    (hshort : s.user_redemption + amount ≤ U64_MAX)
    (hts : U64_MAX < s.total_supply + amount) :
    mint_options_handler s amount = .error (.code .MathOverflow) := by
  simp [mint_options_handler, validate_amount, token_transfer, token_mint_to,
        checked_add, hpos, Nat.not_lt.mpr hbal, Nat.not_lt.mpr hcv,
        Nat.not_lt.mpr hlong, Nat.not_lt.mpr hshort, Nat.not_le.mpr hts]

/-- C3: a mint with `amount > 0` (and sufficient caller collateral and
token-account headroom) succeeds with `total_supply` increased by exactly
`amount` when `total_supply + amount` fits in u64, and fails with
`MathOverflow` — no state delivered at all — when it would exceed
`u64::MAX`. -/
theorem mint_supply_accounting (s : SeriesState) (amount : Nat)
    (hpos : 0 < amount) (hbal : amount ≤ s.user_collateral)
    (hcv : s.collateral_vault + amount ≤ U64_MAX)
    (hlong : s.user_option + amount ≤ U64_MAX)
    (hshort : s.user_redemption + amount ≤ U64_MAX) :
    (s.total_supply + amount ≤ U64_MAX →
      ∃ s', mint_options_handler s amount = .ok s' ∧
        s'.total_supply = s.total_supply + amount) ∧
    (U64_MAX < s.total_supply + amount →
      mint_options_handler s amount = .error (.code .MathOverflow)) :=
  ⟨fun hts => ⟨_, mint_options_run s amount hpos hbal hcv hlong hshort hts, rfl⟩,
   fun hts => mint_options_overflow s amount hpos hbal hcv hlong hshort hts⟩

/-- Base concrete state used by the witnesses. -/
def sW : SeriesState :=
  { total_supply := 100, exercised_amount := 0, strike_price := 7,
    expiration := 1000, collateral_decimals := 0, consideration_decimals := 0,
    collateral_vault := 100, consideration_vault := 50,
    user_collateral := 10, user_consideration := 20,
    user_option := 30, user_redemption := 40 }

/-- Concrete state at the `total_supply` ceiling. -/
def sWmax : SeriesState := { sW with total_supply := U64_MAX }

/-- C3 witness: a concrete mint of 5 succeeds with supply 105, and a concrete
mint of 1 at `total_supply = u64::MAX` fails with `MathOverflow`. -/
theorem mint_supply_accounting_witness :
    (∃ s', mint_options_handler sW 5 = .ok s' ∧
      s'.total_supply = sW.total_supply + 5) ∧
    mint_options_handler sWmax 1 = .error (.code .MathOverflow) :=
  ⟨(mint_supply_accounting sW 5 (by decide) (by decide) (by decide)
      (by decide) (by decide)).1 (by decide),
   (mint_supply_accounting sWmax 1 (by decide) (by decide) (by decide)
      (by decide) (by decide)).2 (by decide)⟩

/-- C5: minting `amount` and then burn-pairing the same `amount` restores the
exact starting state: caller collateral, long and short balances, the
collateral vault, and `total_supply` all return to their original values. -/
theorem mint_burn_paired_roundtrip (s : SeriesState) (amount : Nat)
    (hpos : 0 < amount) (hbal : amount ≤ s.user_collateral)
    (hcolmax : s.user_collateral ≤ U64_MAX)
    (hcv : s.collateral_vault + amount ≤ U64_MAX)
    (hlong : s.user_option + amount ≤ U64_MAX)
    (hshort : s.user_redemption + amount ≤ U64_MAX)
    (hts : s.total_supply + amount ≤ U64_MAX) :
    ∃ s1, mint_options_handler s amount = .ok s1 ∧
      burn_paired_handler s1 amount = .ok s := by
  refine ⟨_, mint_options_run s amount hpos hbal hcv hlong hshort hts, ?_⟩
  simp [burn_paired_handler, validate_amount, validate_vault_balance,
        token_burn, token_transfer, checked_sub, hpos, Nat.le_add_left,
        Nat.not_lt.mpr (Nat.le_add_left amount _), Nat.add_sub_cancel,
        Nat.sub_add_cancel hbal, Nat.not_lt.mpr hcolmax]

/-- C5 witness: a concrete mint of 5 from the base state, followed by a
burn-paired of 5, returns exactly the base state. -/
theorem mint_burn_paired_roundtrip_witness :
    ∃ s1, mint_options_handler sW 5 = .ok s1 ∧
      burn_paired_handler s1 5 = .ok sW :=
  mint_burn_paired_roundtrip sW 5 (by decide) (by decide) (by decide)
    (by decide) (by decide) (by decide) (by decide)

/-- C4: every successful Exercise and every successful Redeem leaves
`total_supply` unchanged; Exercise increments only `exercised_amount` (by the
exercised amount) and Redeem mutates neither counter. -/
theorem exercise_redeem_preserve_counters :
    (∀ (s s' : SeriesState) (amount : Nat),
        exercise_handler s amount = .ok s' →
        s'.total_supply = s.total_supply ∧
        s'.exercised_amount = s.exercised_amount + amount) ∧
    (∀ (s s' : SeriesState) (current_time : Int) (amount : Nat),
        redeem_handler s current_time amount = .ok s' →
        s'.total_supply = s.total_supply ∧
        s'.exercised_amount = s.exercised_amount) := by
  constructor
  · intro s s' amount h
    unfold exercise_handler at h
    repeat' split at h
    any_goals exact Except.noConfusion h
    rename_i ex heq
    injection h with h'
    subst h'
    exact ⟨rfl, checked_add_some heq⟩
  · intro s s' current_time amount h
    unfold redeem_handler at h
    repeat' split at h
    any_goals exact Except.noConfusion h
    injection h with h'
    subst h'
    exact ⟨rfl, rfl⟩

/-- State after exercising 1 option from the base state `sW` (strike payment
is 1 * 7 / 10^0 = 7). -/
def sWexercised : SeriesState :=
  { sW with exercised_amount := 1, collateral_vault := 99,
            consideration_vault := 57, user_collateral := 11,
            user_consideration := 13, user_option := 29 }

/-- State after redeeming 40 short tokens from the base state `sW` at time
2000 (payouts 40 collateral and 20 consideration). -/
def sWredeemed : SeriesState :=
  { sW with collateral_vault := 60, consideration_vault := 30,
            user_collateral := 50, user_consideration := 40,
            user_redemption := 0 }

/-- C4 witness: a concrete successful exercise and a concrete successful
redeem, with the counter frame conditions checked on them. -/
theorem exercise_redeem_preserve_counters_witness :
    (sWexercised.total_supply = sW.total_supply ∧
     sWexercised.exercised_amount = sW.exercised_amount + 1) ∧
    (sWredeemed.total_supply = sW.total_supply ∧
     sWredeemed.exercised_amount = sW.exercised_amount) :=
  ⟨exercise_redeem_preserve_counters.1 sW sWexercised 1 (by decide),
   exercise_redeem_preserve_counters.2 sW sWredeemed 2000 40 (by decide)⟩

/-- Concrete pre-state for the Redeem-Consideration account mix-up: the
caller holds 5 short (redemption) tokens but no consideration tokens, and the
consideration vault is funded. -/
def sShortOnly : SeriesState :=
  { total_supply := 10, exercised_amount := 0, strike_price := 1,
    expiration := 1000, collateral_decimals := 0, consideration_decimals := 0,
    collateral_vault := 0, consideration_vault := 100,
    user_collateral := 0, user_consideration := 0,
    user_option := 0, user_redemption := 5 }

/-- C2: the handler reads `user_consideration_account.amount` as the short
balance, so a caller whose short (redemption) balance is positive but whose
consideration balance is zero is rejected with `NoShortTokens`, and the
pro-rata share is computed over the consideration balance — contradicting
the handler's own comment and error message ("User must have SHORT tokens"). -/
theorem redeem_consideration_wrong_account :
    0 < sShortOnly.user_redemption ∧
    0 < sShortOnly.consideration_vault ∧
    redeem_consideration_handler sShortOnly = .error (.code .NoShortTokens) :=
  ⟨by decide, by decide, rfl⟩

/-- C10: when `amount * strike_price < 10^collateral_decimals` (decimals
small enough that the power fits in u64), the strike payment floors to `0`
with no error, and Exercise then releases `amount` collateral to the caller
while the consideration vault and the caller's consideration balance stay
unchanged. -/
theorem zero_payment_exercise (s : SeriesState) (amount : Nat)
    (hpos : 0 < amount) (hsp : 0 < s.strike_price)
    (hcd : s.collateral_decimals ≤ 19)
    (hsmall : amount * s.strike_price < 10 ^ s.collateral_decimals)
    (hvault : amount ≤ s.collateral_vault)
    (hlong : amount ≤ s.user_option)
    (hconsmax : s.consideration_vault ≤ U64_MAX)
    (hucol : s.user_collateral + amount ≤ U64_MAX)
    (hex : s.exercised_amount + amount ≤ U64_MAX) :
    calculate_strike_payment amount s.strike_price s.collateral_decimals = .ok 0 ∧
    exercise_handler s amount =
      .ok { s with user_option := s.user_option - amount,
                   collateral_vault := s.collateral_vault - amount,
                   user_collateral := s.user_collateral + amount,
                   exercised_amount := s.exercised_amount + amount } := by
  have hpow : 10 ^ s.collateral_decimals ≤ U64_MAX :=
    le_trans (Nat.pow_le_pow_right (by norm_num) hcd) (by norm_num [U64_MAX])
  have hpow0 : 10 ^ s.collateral_decimals ≠ 0 :=
    Nat.pos_iff_ne_zero.mp (Nat.pos_pow_of_pos _ (by norm_num))
  have hmul : amount * s.strike_price ≤ U64_MAX :=
    le_trans (le_of_lt hsmall) hpow
  have hzero : amount * s.strike_price / 10 ^ s.collateral_decimals = 0 :=
    Nat.div_eq_of_lt hsmall
  have hsp0 : calculate_strike_payment amount s.strike_price
      s.collateral_decimals = .ok 0 := by
    simp [calculate_strike_payment, checked_mul, checked_div, pow10_u64,
          hpow, hpow0, hmul, hzero]
  refine ⟨hsp0, ?_⟩
  simp [exercise_handler, validate_amount, validate_vault_balance, hsp0,
        token_burn, token_transfer, checked_add, hpos, hvault,
        Nat.not_lt.mpr hvault,
        Nat.not_lt.mpr hlong, Nat.not_lt.mpr hconsmax, Nat.not_lt.mpr hucol,
        hex, Nat.not_lt_zero]

/-- Concrete state with a tiny strike: 3 options at strike 2 with one
collateral decimal give `3 * 2 = 6 < 10`, so the payment floors to zero. -/
def sTinyStrike : SeriesState :=
  { total_supply := 10, exercised_amount := 0, strike_price := 2,
    expiration := 1000, collateral_decimals := 1, consideration_decimals := 0,
    collateral_vault := 10, consideration_vault := 4,
    user_collateral := 1, user_consideration := 6,
    user_option := 8, user_redemption := 0 }

/-- C10 witness: exercising 3 options at strike 2 with one collateral decimal
pays zero consideration and still releases the 3 units of collateral. -/
theorem zero_payment_exercise_witness :
    calculate_strike_payment 3 sTinyStrike.strike_price
      sTinyStrike.collateral_decimals = .ok 0 ∧
    exercise_handler sTinyStrike 3 =
      .ok { sTinyStrike with
              user_option := sTinyStrike.user_option - 3,
              collateral_vault := sTinyStrike.collateral_vault - 3,
              user_collateral := sTinyStrike.user_collateral + 3,
              exercised_amount := sTinyStrike.exercised_amount + 3 } :=
  zero_payment_exercise sTinyStrike 3 (by decide) (by decide) (by decide)
    (by decide) (by decide) (by decide) (by decide) (by decide) (by decide)

end SolOptionProtocol
